import Mathlib

/-!
Shallow embedding of the RemoteFS core (agent access gate, relay session
table / router / authenticator, client retry wrapper) together with proofs
of the specified properties.  Rust source files embedded here:
`remotefs-agent/src/access.rs`, `remotefs-agent/src/filesystem.rs`,
`remotefs-relay/src/{session,routing,server,auth}.rs`,
`remotefs-client/src/client.rs`, `remotefs-common/src/utils.rs`,
`remotefs-common/src/protocol.rs`.

Machine integers are modelled as `Nat` with an explicit `% 2^64` where the
source performs wrapping 64-bit arithmetic.  Filesystem interaction
(`Path::exists`, `canonicalize`, `symlink_metadata`) is modelled by an
explicit oracle structure `FsView`; the write path's syscalls are recorded
in an explicit effect trace.
-/

set_option maxRecDepth 4000

namespace RemoteFS

/-- Error kinds of `RemoteFsError` (remotefs-common/src/error.rs) that the
embedded code constructs. -/
inductive RErr where
  | authentication (msg : String)
  | authorization (msg : String)
  | fileSystem (msg : String)
  | invalidPath (msg : String)
  | protocol (msg : String)
  | notFound (msg : String)
  | serviceUnavailable (msg : String)
  | network (msg : String)
  deriving Repr, DecidableEq

/-- `true` exactly on `Except.error`. -/
def isErr {ε α : Type} (r : Except ε α) : Bool :=
  match r with
  | .error _ => true
  | .ok _ => false

instance {ε α : Type} [DecidableEq ε] [DecidableEq α] :
    DecidableEq (Except ε α) := fun a b =>
  match a, b with
  | .error x, .error y =>
    if h : x = y then isTrue (by rw [h]) else isFalse (by intro hc; cases hc; exact h rfl)
  | .ok x, .ok y =>
    if h : x = y then isTrue (by rw [h]) else isFalse (by intro hc; cases hc; exact h rfl)
  | .error _, .ok _ => isFalse (by intro hc; cases hc)
  | .ok _, .error _ => isFalse (by intro hc; cases hc)

/-- Rust `str::len`: the UTF-8 byte length, as a structurally recursive
fold over the characters. -/
def utf8Len (s : String) : Nat :=
  s.data.foldl (fun n c => n + c.utf8Size) 0

/-! ## Path model

A Rust `Path` is modelled as its component list, as produced by
`Path::components()`: a leading `/` yields `RootDir`, `.` yields `CurDir`,
`..` yields `ParentDir`, everything else a `Normal` component. -/

/-- One component of a `std::path::Path` (the Windows-only `Prefix`
component cannot arise on the agent's Unix target and is omitted). -/
inductive Comp where
  | rootDir
  | curDir
  | parentDir
  | normal (name : String)
  deriving Repr, DecidableEq

/-- Parse one path-segment string into a component. -/
def segToComp (s : String) : Comp :=
  if s = "." then .curDir
  else if s = ".." then .parentDir
  else .normal s

/-- Split a character list at `/` separators (structurally recursive so
that the kernel can evaluate it on concrete paths). -/
def splitSlashAux : List Char → List Char → List String
  | [], acc => [String.mk acc.reverse]
  | c :: rest, acc =>
    if c = '/' then String.mk acc.reverse :: splitSlashAux rest []
    else splitSlashAux rest (c :: acc)

/-- `Path::components()` of a path string: a leading `/` contributes
`RootDir`; empty segments (duplicate or trailing separators) are skipped. -/
def parseComponents (s : String) : List Comp :=
  let segs := (splitSlashAux s.data []).filter (fun seg => seg ≠ "")
  if s.data.head? = some '/' then Comp.rootDir :: segs.map segToComp
  else segs.map segToComp

/-- `clean_path` (access.rs): skip `.`, pop the previous component on `..`
(this can pop a leading root component, exactly as the source's
`components.pop()` does), keep everything else. -/
def cleanPath (p : List Comp) : List Comp :=
  p.foldl
    (fun components component =>
      match component with
      | .curDir => components
      | .parentDir => components.dropLast
      | c => components ++ [c])
    []

/-- Rust `Path::starts_with`: component-wise prefix test. -/
def rustStartsWith (p pre : List Comp) : Bool :=
  pre.isPrefixOf p

/-- Rust `Path::extension()` of one file name: the part after the last `.`,
provided that `.` is not the first character (`".bashrc"` has no
extension, `"foo."` has extension `""`).  Computed from the reversed
character list: the characters before the first reversed `.` are the
extension, unless no `.` exists or the `.` is the name's first character. -/
def extOfName (name : String) : Option String :=
  let rev := name.data.reverse
  let pre := rev.takeWhile (fun c => c ≠ '.')
  match rev.dropWhile (fun c => c ≠ '.') with
  | [] => none
  | [_] => none
  | _ => some (String.mk pre.reverse)

/-- Rust `Path::extension()` on a cleaned component list: the extension of
the final `Normal` component, `none` when the path ends in the root or is
empty. -/
def rustExtension (p : List Comp) : Option String :=
  match p.getLast? with
  | some (.normal name) => extOfName name
  | _ => none

/-! ## Filesystem oracle -/

/-- Oracle for the filesystem reads the access gate performs:
`Path::exists`, `Path::canonicalize` (`none` models an `Err`, in which case
the source falls back to `clean_path`), and `symlink_metadata` (`none`
models a metadata read error, `some b` reports whether the file is a
symlink). -/
structure FsView where
  exists_ : List Comp → Bool
  canonical : List Comp → Option (List Comp)
  symlinkMeta : List Comp → Option Bool

/-- `normalize_path` (access.rs): canonicalize an existing path (falling
back to `clean_path` when canonicalization fails), lexically clean a
non-existing one. -/
def normalizePath (fs : FsView) (path : String) : List Comp :=
  let pathBuf := parseComponents path
  if fs.exists_ pathBuf then
    match fs.canonical pathBuf with
    | some c => c
    | none => cleanPath pathBuf
  else cleanPath pathBuf

/-- Loop body of `AccessControl::contains_symlink`: walk the growing
component prefix; an existing prefix whose metadata read fails is a
`FileSystem` error, an existing symlink prefix answers `true`. -/
def containsSymlinkAux (fs : FsView) (current : List Comp) :
    List Comp → Except RErr Bool
  | [] => .ok false
  | component :: rest =>
    let current' := current ++ [component]
    if fs.exists_ current' then
      match fs.symlinkMeta current' with
      | none => .error (.fileSystem "Failed to read symlink metadata")
      | some true => .ok true
      | some false => containsSymlinkAux fs current' rest
    else containsSymlinkAux fs current' rest

/-- `AccessControl::contains_symlink` (access.rs). -/
def containsSymlink (fs : FsView) (path : List Comp) : Except RErr Bool :=
  containsSymlinkAux fs [] path

/-! ## Access control (remotefs-agent/src/access.rs) -/

/-- The type of access being requested (access.rs `AccessType`). -/
inductive AccessType where
  | read
  | write
  | create
  | delete
  deriving Repr, DecidableEq

/-- The constructed `AccessControl` state: the path lists already
normalized by `normalize_path`, the extension lists already lowercased
(`AccessControl::new`), plus the copied config fields the checks read. -/
structure AccessControl where
  allowedPaths : List (List Comp)
  readOnlyPaths : List (List Comp)
  deniedPaths : List (List Comp)
  allowedExtensions : List String
  deniedExtensions : List String
  followSymlinks : Bool
  maxFileSize : Nat
  deriving Repr

/-- `AccessControl::is_path_denied`. -/
def isPathDenied (ac : AccessControl) (path : List Comp) : Bool :=
  ac.deniedPaths.any (fun denied => rustStartsWith path denied || path = denied)

/-- `AccessControl::is_path_allowed`. -/
def isPathAllowed (ac : AccessControl) (path : List Comp) : Bool :=
  ac.allowedPaths.any (fun allowed => rustStartsWith path allowed || path = allowed)

/-- `AccessControl::is_path_read_only`. -/
def isPathReadOnly (ac : AccessControl) (path : List Comp) : Bool :=
  ac.readOnlyPaths.any (fun readonly => rustStartsWith path readonly || path = readonly)

/-- The symlink-policy step of `check_path_access`: with
`follow_symlinks` the path is used as-is; otherwise a path containing a
symlink is an authorization error and a failing metadata read propagates
as a filesystem error. -/
def resolveSymlinkStep (fs : FsView) (ac : AccessControl)
    (pathBuf : List Comp) : Except RErr (List Comp) :=
  if ac.followSymlinks then .ok pathBuf
  else
    match containsSymlink fs pathBuf with
    | .error e => .error e
    | .ok true => .error (.authorization "Symlinks are not allowed")
    | .ok false => .ok pathBuf

/-- The extension-filter step of `check_path_access` (runs only when the
resolved path has an extension): a lowercased match against the denied
list rejects, then a non-empty allowed list must contain it. -/
def checkExtensionStep (ac : AccessControl) (extension : String) :
    Except RErr Unit :=
  let extLower := String.mk (extension.data.map Char.toLower)
  if !ac.deniedExtensions.isEmpty && ac.deniedExtensions.contains extLower then
    .error (.authorization ("File extension is not allowed: " ++ extension))
  else if !ac.allowedExtensions.isEmpty && !ac.allowedExtensions.contains extLower then
    .error (.authorization ("File extension is not in allowed list: " ++ extension))
  else .ok ()

/-- `AccessControl::check_path_access`: normalize, enforce the symlink
policy, then denied list, allowed list, read-only list (for write/delete),
and the extension filters, in source order. -/
def checkPathAccess (fs : FsView) (ac : AccessControl) (path : String)
    (accessType : AccessType) : Except RErr Unit :=
  let pathBuf := normalizePath fs path
  match resolveSymlinkStep fs ac pathBuf with
  | .error e => .error e
  | .ok resolvedPath =>
    if isPathDenied ac resolvedPath then
      .error (.authorization ("Access denied to path: " ++ path))
    else if !ac.allowedPaths.isEmpty && !isPathAllowed ac resolvedPath then
      .error (.authorization ("Path not in allowed list: " ++ path))
    else if (accessType = .write ∨ accessType = .delete)
        ∧ isPathReadOnly ac resolvedPath = true then
      .error (.authorization ("Path is read-only: " ++ path))
    else
      match rustExtension resolvedPath with
      | some extension => checkExtensionStep ac extension
      | none => .ok ()

/-- `AccessControlStatistics` (server.rs). -/
structure AccessStats where
  allowedRequests : Nat
  deniedRequests : Nat
  pathViolations : Nat
  sizeViolations : Nat
  deriving Repr, DecidableEq

/-- `AccessControl::update_stats`. -/
def updateStats (st : AccessStats) (allowed pathViolation sizeViolation : Bool) :
    AccessStats :=
  if allowed then { st with allowedRequests := st.allowedRequests + 1 }
  else
    let st := { st with deniedRequests := st.deniedRequests + 1 }
    let st := if pathViolation then { st with pathViolations := st.pathViolations + 1 } else st
    if sizeViolation then { st with sizeViolations := st.sizeViolations + 1 } else st

/-- `AccessControl::check_read_access`: the path check followed by
`update_stats(result.is_ok(), false, false)`. -/
def checkReadAccess (fs : FsView) (ac : AccessControl) (st : AccessStats)
    (path : String) : Except RErr Unit × AccessStats :=
  let result := checkPathAccess fs ac path .read
  (result, updateStats st (!isErr result) false false)

/-- `AccessControl::check_write_access`. -/
def checkWriteAccess (fs : FsView) (ac : AccessControl) (st : AccessStats)
    (path : String) : Except RErr Unit × AccessStats :=
  let result := checkPathAccess fs ac path .write
  (result, updateStats st (!isErr result) false false)

/-- `AccessControl::check_create_access`. -/
def checkCreateAccess (fs : FsView) (ac : AccessControl) (st : AccessStats)
    (path : String) : Except RErr Unit × AccessStats :=
  let result := checkPathAccess fs ac path .create
  (result, updateStats st (!isErr result) false false)

/-- `AccessControl::check_delete_access`. -/
def checkDeleteAccess (fs : FsView) (ac : AccessControl) (st : AccessStats)
    (path : String) : Except RErr Unit × AccessStats :=
  let result := checkPathAccess fs ac path .delete
  (result, updateStats st (!isErr result) false false)

/-- `AccessControl::check_file_size`: reject sizes above the cap, counting
a size violation; within the cap nothing is recorded. -/
def checkFileSize (ac : AccessControl) (st : AccessStats) (size : Nat) :
    Except RErr Unit × AccessStats :=
  if size > ac.maxFileSize then
    (.error (.authorization ("File size exceeds maximum allowed size")),
      updateStats st false false true)
  else (.ok (), st)

/-- `validation::validate_file_path` (remotefs-common/src/utils.rs):
reject the empty path, paths longer than 4096 bytes, and paths containing
a NUL byte.  (`str::len` counts bytes; `String.utf8ByteSize` matches.) -/
def validateFilePath (path : String) : Except RErr Unit :=
  if path.data.isEmpty then
    .error (.invalidPath "Path cannot be empty")
  else if utf8Len path > 4096 then
    .error (.invalidPath "Path too long (max 4096 characters)")
  else if path.data.contains '\x00' then
    .error (.invalidPath "Path cannot contain null bytes")
  else .ok ()

/-! ## Protocol messages (remotefs-common/src/protocol.rs)

`Uuid` request ids are modelled as `Nat` (128-bit unique tokens), byte
vectors as `List Nat`, `DateTime<Utc>` timestamps as `Nat`.  The
`FileMetadata`/`DirEntry`/`RelayInfo` payloads are carried verbatim. -/

/-- `NodeType`. -/
inductive NodeType where
  | client
  | agent
  | relay
  deriving Repr, DecidableEq

/-- `FileType`. -/
inductive FileType where
  | file
  | directory
  | symlink
  | blockDevice
  | charDevice
  | fifo
  | socket
  deriving Repr, DecidableEq

/-- `FileMetadata`. -/
structure FileMetadata where
  size : Nat
  modified : Nat
  created : Nat
  accessed : Nat
  permissions : Nat
  uid : Nat
  gid : Nat
  isDir : Bool
  isFile : Bool
  isSymlink : Bool
  fileType : FileType
  symlinkTarget : Option String
  deriving Repr, DecidableEq

/-- `DirEntry`. -/
structure DirEntry where
  name : String
  metadata : FileMetadata
  deriving Repr, DecidableEq

/-- `RelayInfo`. -/
structure RelayInfo where
  relayId : String
  capabilities : List String
  maxMessageSize : Nat
  heartbeatInterval : Nat
  deriving Repr, DecidableEq

/-- `ErrorCode`. -/
inductive ErrorCode where
  | authenticationFailed | invalidCredentials | sessionExpired
  | accessDenied | pathNotAllowed | insufficientPermissions
  | fileNotFound | directoryNotFound | pathAlreadyExists | invalidPath
  | diskFull | readOnlyFileSystem
  | networkError | connectionTimeout | messageTooLarge | invalidMessage
  | internalError | notImplemented | serviceUnavailable
  deriving Repr, DecidableEq

/-- The `Message` enum: every protocol variant with its fields. -/
inductive Message where
  | authRequest (nodeId : String) (nodeType : NodeType)
      (publicKey : List Nat) (capabilities : List String)
  | authResponse (success : Bool) (sessionToken : Option String)
      (relayInfo : Option RelayInfo) (error : Option String)
  | establishChannel (targetNode : String) (encryptedKeyExchange : List Nat)
  | channelEstablished (success : Bool) (encryptedResponse : Option (List Nat))
      (error : Option String)
  | readFile (requestId : Nat) (path : String) (offset : Nat) (length : Nat)
  | readFileResponse (requestId : Nat) (success : Bool)
      (data : Option (List Nat)) (bytesRead : Nat) (error : Option String)
  | writeFile (requestId : Nat) (path : String) (offset : Nat)
      (data : List Nat) (sync : Bool)
  | writeFileResponse (requestId : Nat) (success : Bool)
      (bytesWritten : Nat) (error : Option String)
  | createFile (requestId : Nat) (path : String) (mode : Nat) (exclusive : Bool)
  | createFileResponse (requestId : Nat) (success : Bool)
      (metadata : Option FileMetadata) (error : Option String)
  | deleteFile (requestId : Nat) (path : String)
  | deleteFileResponse (requestId : Nat) (success : Bool) (error : Option String)
  | truncateFile (requestId : Nat) (path : String) (size : Nat)
  | truncateFileResponse (requestId : Nat) (success : Bool) (error : Option String)
  | listDirectory (requestId : Nat) (path : String)
  | listDirectoryResponse (requestId : Nat) (success : Bool)
      (entries : Option (List DirEntry)) (error : Option String)
  | createDirectory (requestId : Nat) (path : String) (mode : Nat)
  | createDirectoryResponse (requestId : Nat) (success : Bool)
      (metadata : Option FileMetadata) (error : Option String)
  | removeDirectory (requestId : Nat) (path : String) (recursive : Bool)
  | removeDirectoryResponse (requestId : Nat) (success : Bool) (error : Option String)
  | getMetadata (requestId : Nat) (path : String) (followSymlinks : Bool)
  | getMetadataResponse (requestId : Nat) (success : Bool)
      (metadata : Option FileMetadata) (error : Option String)
  | setMetadata (requestId : Nat) (path : String) (metadata : FileMetadata)
  | setMetadataResponse (requestId : Nat) (success : Bool) (error : Option String)
  | rename (requestId : Nat) (fromPath : String) (toPath : String)
  | renameResponse (requestId : Nat) (success : Bool) (error : Option String)
  | createSymlink (requestId : Nat) (linkPath : String) (targetPath : String)
  | createSymlinkResponse (requestId : Nat) (success : Bool) (error : Option String)
  | pathExists (requestId : Nat) (path : String)
  | pathExistsResponse (requestId : Nat) (exists_ : Bool) (error : Option String)
  | getSpaceInfo (requestId : Nat) (path : String)
  | getSpaceInfoResponse (requestId : Nat) (success : Bool)
      (totalSpace availableSpace usedSpace : Option Nat) (error : Option String)
  | ping (timestamp : Nat)
  | pong (timestamp : Nat) (originalTimestamp : Nat)
  | connectionClose (reason : String)
  | error (requestId : Option Nat) (code : ErrorCode) (message : String)
      (details : List (String × String))
  deriving Repr, DecidableEq

/-- `Message::request_id`. -/
def Message.requestId : Message → Option Nat
  | .readFile rid _ _ _ => some rid
  | .readFileResponse rid _ _ _ _ => some rid
  | .writeFile rid _ _ _ _ => some rid
  | .writeFileResponse rid _ _ _ => some rid
  | .createFile rid _ _ _ => some rid
  | .createFileResponse rid _ _ _ => some rid
  | .deleteFile rid _ => some rid
  | .deleteFileResponse rid _ _ => some rid
  | .truncateFile rid _ _ => some rid
  | .truncateFileResponse rid _ _ => some rid
  | .listDirectory rid _ => some rid
  | .listDirectoryResponse rid _ _ _ => some rid
  | .createDirectory rid _ _ => some rid
  | .createDirectoryResponse rid _ _ _ => some rid
  | .removeDirectory rid _ _ => some rid
  | .removeDirectoryResponse rid _ _ => some rid
  | .getMetadata rid _ _ => some rid
  | .getMetadataResponse rid _ _ _ => some rid
  | .setMetadata rid _ _ => some rid
  | .setMetadataResponse rid _ _ => some rid
  | .rename rid _ _ => some rid
  | .renameResponse rid _ _ => some rid
  | .createSymlink rid _ _ => some rid
  | .createSymlinkResponse rid _ _ => some rid
  | .pathExists rid _ => some rid
  | .pathExistsResponse rid _ _ => some rid
  | .getSpaceInfo rid _ => some rid
  | .getSpaceInfoResponse rid _ _ _ _ _ => some rid
  | .error rid _ _ _ => rid
  | _ => none

/-! ## Relay sessions (remotefs-relay/src/session.rs) -/

/-- Session `MessageFormat` negotiated for a link. -/
inductive MessageFormat where
  | json
  | binary
  deriving Repr, DecidableEq

/-- A relay `Session`.  The `connection_id`, the mutable `last_activity`
clock and the outbound `sender` channel are I/O-environment handles the
claims below do not depend on; `created_at` stands in for the creation
instant. -/
structure Session where
  id : String
  nodeId : String
  nodeType : NodeType
  createdAt : Nat
  messageFormat : MessageFormat
  deriving Repr, DecidableEq

/-- The `SessionManager` table: a `HashMap<String, Session>` keyed by
`session.id`, modelled as an association list with HashMap insert
semantics (replace the entry with an equal key, otherwise add). -/
abbrev SessionTable : Type := List (String × Session)

/-- The empty session table. -/
def emptyTable : SessionTable := []

/-- `SessionManager::add_session`: `sessions.insert(session.id, session)`. -/
def addSession (t : SessionTable) (s : Session) : SessionTable :=
  if t.any (fun e => e.1 = s.id) then
    t.map (fun e => if e.1 = s.id then (s.id, s) else e)
  else t ++ [(s.id, s)]

/-- `SessionManager::remove_session`: `sessions.remove(session_id)`. -/
def removeSession (t : SessionTable) (sessionId : String) : SessionTable :=
  t.filter (fun e => e.1 ≠ sessionId)

/-- `SessionManager::get_session_by_node`: first session with the node id
(in table iteration order). -/
def getSessionByNode (t : SessionTable) (nodeId : String) : Option Session :=
  (t.map Prod.snd).find? (fun s => s.nodeId = nodeId)

/-- `SessionManager::get_active_nodes`: node ids of the sessions of one
type, in table iteration order. -/
def getActiveNodes (t : SessionTable) (nodeType : NodeType) : List String :=
  ((t.map Prod.snd).filter (fun s => s.nodeType = nodeType)).map Session.nodeId

/-- The session tables reachable through the manager's mutators, starting
from the empty table (`handle_auth_request` adds, link teardown and the
expiry sweep remove). -/
inductive ReachableTable : SessionTable → Prop where
  | empty : ReachableTable emptyTable
  | add {t} (s : Session) : ReachableTable t → ReachableTable (addSession t s)
  | remove {t} (sessionId : String) : ReachableTable t →
      ReachableTable (removeSession t sessionId)

/-! ## Relay router (remotefs-relay/src/routing.rs) -/

/-- An outbound WebSocket frame: the transport tag (`Text` vs `Binary`)
with the message it carries.  The JSON / bincode byte serializations are
injective encodings whose payload content the routing claims do not
inspect, so the frame keeps the message itself. -/
inductive WsFrame where
  | text (m : Message)
  | binary (m : Message)
  deriving Repr, DecidableEq

/-- The transport tag of a frame. -/
def frameFormat : WsFrame → MessageFormat
  | .text _ => .json
  | .binary _ => .binary

/-- `MessageRouter::find_target_client_for_response`: when the response
carries a request id, answer the FIRST active client (the source has no
request-tracking table); without a request id, a protocol error. -/
def findTargetClientForResponse (message : Message) (t : SessionTable) :
    Except RErr String :=
  match message.requestId with
  | some _ =>
    let clients := getActiveNodes t .client
    match clients with
    | [] => .error (.notFound "No clients available")
    | c :: _ => .ok c
  | none => .error (.protocol "Response message missing request ID")

/-- `MessageRouter::send_to_target`: look the target session up by node
id and frame the message in that session's stored `message_format`. -/
def sendToTarget (message : Message) (targetNodeId : String) (t : SessionTable) :
    Except RErr WsFrame :=
  match getSessionByNode t targetNodeId with
  | none => .error (.notFound ("Target node not found: " ++ targetNodeId))
  | some targetSession =>
    match targetSession.messageFormat with
    | .json => .ok (.text message)
    | .binary => .ok (.binary message)

/-! ## Relay server reply path (remotefs-relay/src/server.rs) -/

/-- `send_message` (server.rs): frame a relay-generated reply in the
`format` argument — the decode format of the inbound frame that triggered
it (`handle_text_message` passes `Json`, `handle_binary_message`
`Binary`). -/
def sendMessage (message : Message) (format : MessageFormat) : WsFrame :=
  match format with
  | .json => .text message
  | .binary => .binary message

/-- The decode format `handle_websocket` derives from an inbound frame's
transport tag. -/
def inboundFormat : WsFrame → MessageFormat
  | .text _ => .json
  | .binary _ => .binary

/-- `handle_ping` (server.rs): reply with a `Pong` framed in the inbound
frame's format.  `now` models the `Utc::now()` reading. -/
def handlePing (now : Nat) (originalTimestamp : Nat) (format : MessageFormat) :
    WsFrame :=
  sendMessage (.pong now originalTimestamp) format

/-! ## Relay authenticator (remotefs-relay/src/auth.rs) -/

/-- Rust `char::is_alphanumeric` (Unicode `Alphabetic` or `Number`),
embedded exactly on the Basic Latin and Latin-1 Supplement blocks — the
range every theorem below evaluates it on.  Code points above `U+00FF`
are outside the modelled range and mapped to `false`; the theorems that
quantify over strings therefore restrict the decisive character to
`c.toNat ≤ 0xFF`. -/
def rustCharIsAlphanumeric (c : Char) : Bool :=
  let n := c.toNat
  (0x30 ≤ n && n ≤ 0x39) ||            -- 0-9
  (0x41 ≤ n && n ≤ 0x5A) ||            -- A-Z
  (0x61 ≤ n && n ≤ 0x7A) ||            -- a-z
  n = 0xAA || n = 0xB5 || n = 0xBA ||  -- feminine ordinal, micro sign, masculine ordinal
  n = 0xB2 || n = 0xB3 || n = 0xB9 ||  -- superscript two/three/one
  (0xBC ≤ n && n ≤ 0xBE) ||            -- vulgar fractions
  (0xC0 ≤ n && n ≤ 0xD6) ||            -- Latin-1 letters (times sign excluded)
  (0xD8 ≤ n && n ≤ 0xF6) ||            -- Latin-1 letters (division sign excluded)
  (0xF8 ≤ n && n ≤ 0xFF)               -- Latin-1 letters

/-- `AuthManager::validate_node_id`: non-empty, at most 64 bytes
(`str::len`), and every character alphanumeric (Unicode), `-` or `_`. -/
def validateNodeId (nodeId : String) : Except RErr Unit :=
  if nodeId.data.isEmpty then
    .error (.authentication "Node ID cannot be empty")
  else if utf8Len nodeId > 64 then
    .error (.authentication "Node ID too long")
  else if !(nodeId.data.all (fun c => rustCharIsAlphanumeric c || c = '-' || c = '_')) then
    .error (.authentication "Node ID contains invalid characters")
  else .ok ()

/-- `AuthManager::validate_node_type`: relays may not authenticate. -/
def validateNodeType (nodeType : NodeType) : Except RErr Unit :=
  match nodeType with
  | .client => .ok ()
  | .agent => .ok ()
  | .relay => .error (.authentication "Relay nodes cannot authenticate with other relays")

/-- `AuthManager::validate_public_key`: non-empty and exactly 32 bytes. -/
def validatePublicKey (publicKey : List Nat) : Except RErr Unit :=
  if publicKey.isEmpty then
    .error (.authentication "Public key cannot be empty")
  else if publicKey.length ≠ 32 then
    .error (.authentication "Invalid public key length: expected 32 bytes")
  else .ok ()

/-- The per-capability body of the `validate_capabilities` loop. -/
def validateOneCapability (capability : String) : Except RErr Unit :=
  if capability.data.isEmpty then
    .error (.authentication "Empty capability not allowed")
  else if utf8Len capability > 64 then
    .error (.authentication "Capability too long")
  else if !(capability.data.all
      (fun c => rustCharIsAlphanumeric c || c = '-' || c = '_' || c = '.')) then
    .error (.authentication "Invalid capability: contains invalid characters")
  else .ok ()

/-- `AuthManager::validate_capabilities`: at most 20 entries, each
non-empty, at most 64 bytes, of alphanumerics, `-`, `_` and `.`. -/
def validateCapabilities (capabilities : List String) : Except RErr Unit :=
  if capabilities.length > 20 then
    .error (.authentication "Too many capabilities")
  else
    capabilities.foldl
      (fun acc capability =>
        match acc with
        | .error e => .error e
        | .ok _ => validateOneCapability capability)
      (.ok ())

/-- The validation prefix of `AuthManager::authenticate_node`: node id,
node type, public key and capabilities are validated in this order before
any policy or token work happens. -/
def authenticateValidations (nodeId : String) (nodeType : NodeType)
    (publicKey : List Nat) (capabilities : List String) : Except RErr Unit := do
  validateNodeId nodeId
  validateNodeType nodeType
  validatePublicKey publicKey
  validateCapabilities capabilities

/-! ## Agent write pipeline (remotefs-agent/src/filesystem.rs) -/

/-- `FilesystemStatistics` counters the write handler touches
(`active_operations` bookkeeping and the wall-clock performance samples
are timing artifacts, omitted). -/
structure FsStats where
  totalOperations : Nat
  errorCount : Nat
  bytesRead : Nat
  bytesWritten : Nat
  deriving Repr, DecidableEq

/-- `FilesystemHandler::record_error`. -/
def recordError (st : FsStats) : FsStats :=
  { st with errorCount := st.errorCount + 1 }

/-- A modifying filesystem syscall issued by the write pipeline, in
issue order. -/
inductive FsEffect where
  | createDirAll (path : List Comp)
  | openFile (path : List Comp) (create : Bool) (truncate : Bool)
  | seek (offset : Nat)
  | write (len : Nat)
  | syncData
  deriving Repr, DecidableEq

/-- Oracle for the outcomes of the write pipeline's syscalls:
`parent.exists()`, and whether `create_dir_all` / `open` / `seek` /
`write_all` / `sync_data` succeed. -/
structure WriteIo where
  parentExists : List Comp → Bool
  createDirAllOk : Bool
  openOk : Bool
  seekOk : Bool
  writeOk : Bool
  syncOk : Bool

/-- Rust `Path::parent()`: the path minus its final component; `none` for
an empty path or the bare root. -/
def parentOf (p : List Comp) : Option (List Comp) :=
  match p with
  | [] => none
  | [Comp.rootDir] => none
  | _ => some p.dropLast

/-- The human-readable text of an error, as `e.to_string()` produces it. -/
def RErr.msg : RErr → String
  | .authentication m => m
  | .authorization m => m
  | .fileSystem m => m
  | .invalidPath m => m
  | .protocol m => m
  | .notFound m => m
  | .serviceUnavailable m => m
  | .network m => m

/-- `FilesystemHandler::handle_write_file`.  Returns the response message,
the updated access-control and filesystem statistics, and the trace of
modifying filesystem syscalls issued (in order).  The access check runs
first; the size cap uses `data.len() as u64 + offset.unwrap_or(0)` —
wrapping 64-bit addition, hence the `% 2^64`; only then do parent
creation, open, seek, write and optional sync run, each aborting into a
`success=false` response on failure. -/
def handleWriteFile (fs : FsView) (io : WriteIo) (ac : AccessControl)
    (asyncIo : Bool) (ast : AccessStats) (fst : FsStats)
    (requestId : Nat) (path : String) (data : List Nat)
    (offset : Option Nat) (create : Bool) :
    Message × AccessStats × FsStats × List FsEffect :=
  let failResp := fun (e : RErr) =>
    Message.writeFileResponse requestId false 0 (some e.msg)
  let (r1, ast1) :=
    if create then checkCreateAccess fs ac ast path
    else checkWriteAccess fs ac ast path
  match r1 with
  | .error e => (failResp e, ast1, recordError fst, [])
  | .ok _ =>
    let pathBuf := parseComponents path
    let newSize := (data.length + offset.getD 0) % 2 ^ 64
    let (r2, ast2) := checkFileSize ac ast1 newSize
    match r2 with
    | .error e => (failResp e, ast2, recordError fst, [])
    | .ok _ =>
      let (parentRes, effects1) :=
        if create then
          match parentOf pathBuf with
          | some parent =>
            if !io.parentExists parent then
              (if io.createDirAllOk then Except.ok ()
                else Except.error (RErr.fileSystem "Failed to create parent directories"),
                [FsEffect.createDirAll parent])
            else (Except.ok (), [])
          | none => (Except.ok (), [])
        else (Except.ok (), [])
      match parentRes with
      | .error e => (failResp e, ast2, recordError fst, effects1)
      | .ok _ =>
        let effects2 := effects1 ++ [FsEffect.openFile pathBuf create (create && offset.isNone)]
        if !io.openOk then
          (failResp (.fileSystem "Failed to open file for writing"), ast2, recordError fst, effects2)
        else
          let (seekRes, effects3) :=
            match offset with
            | some o =>
              (if io.seekOk then Except.ok ()
                else Except.error (RErr.fileSystem "Failed to seek"),
                effects2 ++ [FsEffect.seek o])
            | none => (Except.ok (), effects2)
          match seekRes with
          | .error e => (failResp e, ast2, recordError fst, effects3)
          | .ok _ =>
            let effects4 := effects3 ++ [FsEffect.write data.length]
            if !io.writeOk then
              (failResp (.fileSystem "Failed to write file"), ast2, recordError fst, effects4)
            else
              let (syncRes, effects5) :=
                if asyncIo then
                  (if io.syncOk then Except.ok ()
                    else Except.error (RErr.fileSystem "Failed to sync file"),
                    effects4 ++ [FsEffect.syncData])
                else (Except.ok (), effects4)
              match syncRes with
              | .error e => (failResp e, ast2, recordError fst, effects5)
              | .ok _ =>
                let fst' := { fst with
                  bytesWritten := fst.bytesWritten + data.length,
                  totalOperations := fst.totalOperations + 1 }
                (Message.writeFileResponse requestId true data.length none,
                  ast2, fst', effects5)

/-! ## Client retry wrapper (remotefs-client/src/client.rs) -/

/-- The three operation counters of `ClientStats`
(`avg_response_time_ms` is a floating-point running mean, out of the
modelled domain). -/
structure ClientStats where
  operationsTotal : Nat
  operationsSuccessful : Nat
  operationsFailed : Nat
  deriving Repr, DecidableEq

/-- The success branch of `execute_with_retry`'s stats update. -/
def recordSuccess (st : ClientStats) : ClientStats :=
  { st with operationsSuccessful := st.operationsSuccessful + 1,
            operationsTotal := st.operationsTotal + 1 }

/-- The failure block after `execute_with_retry`'s loop. -/
def recordFailure (st : ClientStats) : ClientStats :=
  { st with operationsFailed := st.operationsFailed + 1,
            operationsTotal := st.operationsTotal + 1 }

/-- What one loop iteration of `execute_with_retry` observes:
`get_connection` failed, the operation succeeded, it failed with a
retryable error, or it failed with a non-retryable error. -/
inductive AttemptOutcome where
  | poolErr
  | opOk
  | opRetryableErr
  | opFatalErr
  deriving Repr, DecidableEq

/-- The `for attempt in 0..=max_retries` loop of `execute_with_retry`:
`fuel = max_retries - attempt` counts the retries still allowed, so
`fuel = 0` is the last iteration, where the `attempt < max_retries`
retry guard fails and a retryable error also breaks into the failure
block.  A successful operation updates the success counters and
returns; a pool error, a non-retryable error, and a retryable error on
the last iteration all break into the post-loop failure counters. -/
def execLoop (outcomes : Nat → AttemptOutcome) (st : ClientStats)
    (attempt fuel : Nat) : Bool × ClientStats :=
  if outcomes attempt = .opOk then (true, recordSuccess st)
  else if outcomes attempt = .opRetryableErr then
    match fuel with
    | 0 => (false, recordFailure st)
    | fuel' + 1 => execLoop outcomes st (attempt + 1) fuel'
  else (false, recordFailure st)

/-- `RemoteFsClient::execute_with_retry`, with the per-attempt outcomes
supplied by an oracle. -/
def executeWithRetry (maxRetries : Nat) (outcomes : Nat → AttemptOutcome)
    (st : ClientStats) : Bool × ClientStats :=
  execLoop outcomes st 0 maxRetries

/-- A client-visible operation issued through the retry wrapper: its
retry budget and per-attempt outcomes. -/
structure ClientCall where
  maxRetries : Nat
  outcomes : Nat → AttemptOutcome

/-- Run a sequence of client operations through the retry wrapper,
threading the statistics. -/
def runClientCalls (calls : List ClientCall) (st : ClientStats) : ClientStats :=
  calls.foldl (fun st call => (executeWithRetry call.maxRetries call.outcomes st).2) st

/-! ## Concrete fixtures used by the witnesses and counterexamples -/

/-- A filesystem view in which no path exists (normalization then always
takes the `clean_path` branch and the symlink walk finds nothing). -/
def fsNone : FsView :=
  { exists_ := fun _ => false
    canonical := fun _ => none
    symlinkMeta := fun _ => none }

/-- A permissive policy: empty path and extension lists, symlink
following on, a 1024-byte size cap. -/
def acPermissive : AccessControl :=
  { allowedPaths := []
    readOnlyPaths := []
    deniedPaths := []
    allowedExtensions := []
    deniedExtensions := []
    followSymlinks := true
    maxFileSize := 1024 }

/-- The policy of access.rs `create_test_access_config()`: `/tmp` and
`/home/user` allowed, `/home/user/readonly` read-only, `/etc` and `/root`
denied, extensions txt/md allowed and exe/bat denied, 1 MiB cap, no
symlink following. -/
def acTestConfig : AccessControl :=
  { allowedPaths := [normalizePath fsNone "/tmp", normalizePath fsNone "/home/user"]
    readOnlyPaths := [normalizePath fsNone "/home/user/readonly"]
    deniedPaths := [normalizePath fsNone "/etc", normalizePath fsNone "/root"]
    allowedExtensions := ["txt", "md"]
    deniedExtensions := ["exe", "bat"]
    followSymlinks := false
    maxFileSize := 1024 * 1024 }

/-- All-zero access-control statistics. -/
def accessStats0 : AccessStats := ⟨0, 0, 0, 0⟩

/-- All-zero filesystem statistics. -/
def fsStats0 : FsStats := ⟨0, 0, 0, 0⟩

/-- A client session for node `client-a`, on a JSON link. -/
def sessClientA : Session := ⟨"sess-a", "client-a", .client, 0, .json⟩

/-- A client session for node `client-b`, on a JSON link. -/
def sessClientB : Session := ⟨"sess-b", "client-b", .client, 0, .json⟩

/-- A relay table holding the two client sessions, `client-a` first. -/
def twoClientTable : SessionTable :=
  addSession (addSession emptyTable sessClientA) sessClientB

/-- First session of node `node-1` (session id `sess-1`). -/
def sessNode1A : Session := ⟨"sess-1", "node-1", .client, 0, .json⟩

/-- Second session of node `node-1` (fresh session id `sess-2`,
as `handle_auth_request` mints a fresh request-id for every auth). -/
def sessNode1B : Session := ⟨"sess-2", "node-1", .client, 5, .json⟩

/-- The table after `node-1` authenticated twice. -/
def dupNodeTable : SessionTable :=
  addSession (addSession emptyTable sessNode1A) sessNode1B

/-- A session whose link negotiated the JSON encoding at auth time. -/
def sessJsonLink : Session := ⟨"sess-j", "agent-1", .agent, 0, .json⟩

/-- A session whose link negotiated the binary encoding at auth time. -/
def sessAgentBin : Session := ⟨"sess-bin", "agent-1", .agent, 0, .binary⟩

/-- A one-session relay table for `agent-1` on a binary link. -/
def binaryAgentTable : SessionTable :=
  addSession emptyTable sessAgentBin

/-- Write-path oracle: every syscall succeeds and no parent directory
exists yet. -/
def ioAllOk : WriteIo :=
  { parentExists := fun _ => false
    createDirAllOk := true
    openOk := true
    seekOk := true
    writeOk := true
    syncOk := true }

/-- Write-path oracle: parent creation and open succeed, the seek fails
(as a seek to an offset beyond `i64::MAX` does). -/
def ioSeekFails : WriteIo :=
  { parentExists := fun _ => false
    createDirAllOk := true
    openOk := true
    seekOk := false
    writeOk := true
    syncOk := true }

/-- A path of exactly 4096 characters (all ASCII, so 4096 bytes). -/
def path4096 : String := String.mk (List.replicate 4096 'a')

/-- A path of 4097 characters (4097 bytes). -/
def path4097 : String := String.mk (List.replicate 4097 'a')

/-- A path containing an embedded NUL character. -/
def nulPath : String := "/tmp/fi\x00le"

/-- `[A-Za-z0-9_-]`, the node-id character class as the specification
words it.  (Spec-derived definition, used only to state how the code
differs from it.) -/
def specAllowedNodeIdChar (c : Char) : Bool :=
  ('A' ≤ c && c ≤ 'Z') || ('a' ≤ c && c ≤ 'z') || ('0' ≤ c && c ≤ '9') ||
  c = '_' || c = '-'

/-! ## Shared lemmas -/

/-- When every metadata read on an existing path succeeds, the symlink
walk never raises a filesystem error. -/
theorem containsSymlinkAux_ok (fs : FsView)
    (hmeta : ∀ q, fs.exists_ q = true → (fs.symlinkMeta q).isSome = true) :
    ∀ (rest : List Comp) (current : List Comp),
      ∃ b, containsSymlinkAux fs current rest = .ok b := by
  intro rest
  induction rest with
  | nil => exact fun _ => ⟨false, rfl⟩
  | cons component rest ih =>
    intro current
    unfold containsSymlinkAux
    by_cases he : fs.exists_ (current ++ [component]) = true
    · have hs := hmeta _ he
      cases hm : fs.symlinkMeta (current ++ [component]) with
      | none => rw [hm] at hs; simp at hs
      | some b =>
        cases b
        · simpa [he, hm] using ih (current ++ [component])
        · exact ⟨true, by simp [he, hm]⟩
    · simpa [he] using ih (current ++ [component])

/-- Under a well-behaved metadata oracle `containsSymlink` never errors. -/
theorem containsSymlink_ok (fs : FsView)
    (hmeta : ∀ q, fs.exists_ q = true → (fs.symlinkMeta q).isSome = true)
    (p : List Comp) : ∃ b, containsSymlink fs p = .ok b :=
  containsSymlinkAux_ok fs hmeta p []

/-- Folding UTF-8 character sizes over `n` copies of `a` adds `n`. -/
theorem foldl_utf8_replicate_a (n : Nat) : ∀ acc : Nat,
    (List.replicate n 'a').foldl (fun m c => m + c.utf8Size) acc = acc + n := by
  induction n with
  | zero => intro acc; simp
  | succ k ih =>
    intro acc
    rw [List.replicate_succ, List.foldl_cons, ih]
    have ha : ('a').utf8Size = 1 := rfl
    rw [ha]
    omega

/-- The byte length of `n` copies of `a` is `n`. -/
theorem utf8Len_replicate_a (n : Nat) :
    utf8Len (String.mk (List.replicate n 'a')) = n := by
  unfold utf8Len
  exact (foldl_utf8_replicate_a n 0).trans (Nat.zero_add n)

/-- A run of `a` characters contains no NUL. -/
theorem replicate_a_contains_nul (n : Nat) :
    (List.replicate n 'a').contains '\x00' = false := by
  simp

/-- The name made of `n` copies of `a` has no extension. -/
theorem extOfName_replicate_a (n : Nat) :
    extOfName (String.mk (List.replicate n 'a')) = none := by
  unfold extOfName
  have hrev : (String.mk (List.replicate n 'a')).data.reverse
      = List.replicate n 'a' := List.reverse_replicate n 'a'
  rw [hrev]
  have hdrop : (List.replicate n 'a').dropWhile (fun c => c ≠ '.') = [] := by
    simp
  simp only [hdrop]

/-- Splitting a separator-free run of `a` characters yields the single
segment appended to the pending accumulator. -/
theorem splitSlashAux_replicate_a (n : Nat) : ∀ acc : List Char,
    splitSlashAux (List.replicate n 'a') acc
      = [String.mk (acc.reverse ++ List.replicate n 'a')] := by
  induction n with
  | zero => intro acc; simp [splitSlashAux]
  | succ k ih =>
    intro acc
    rw [List.replicate_succ]
    unfold splitSlashAux
    rw [if_neg (by decide)]
    rw [ih ('a' :: acc)]
    simp [List.replicate_succ]

/-- A path that parses as one extension-free `Normal` component is
accepted for reading under the permissive policy. -/
theorem gate_accepts_single_plain_component (p : String)
    (hp : parseComponents p = [Comp.normal p]) (he : extOfName p = none) :
    checkPathAccess fsNone acPermissive p .read = .ok () := by
  unfold checkPathAccess resolveSymlinkStep normalizePath
  rw [hp]
  simp [fsNone, acPermissive, cleanPath, isPathDenied, isPathAllowed,
    rustExtension, he]

/-- A nonzero run of `a` characters parses as one `Normal` component. -/
theorem parseComponents_replicate_a (n : Nat) (hn : n ≠ 0) :
    parseComponents (String.mk (List.replicate n 'a'))
      = [Comp.normal (String.mk (List.replicate n 'a'))] := by
  obtain ⟨k, rfl⟩ := Nat.exists_eq_succ_of_ne_zero hn
  unfold parseComponents
  have hdata : (String.mk (List.replicate (k + 1) 'a')).data
      = List.replicate (k + 1) 'a' := rfl
  rw [hdata, splitSlashAux_replicate_a]
  have hhead : (List.replicate (k + 1) 'a').head? = some 'a' := by
    rw [List.replicate_succ, List.head?_cons]
  rw [hhead, if_neg (by simp)]
  have hemp : ("" : String).data = [] := rfl
  have hd1 : ("." : String).data = ['.'] := rfl
  have hd2 : (".." : String).data = ['.', '.'] := rfl
  have hne : String.mk (List.replicate (k + 1) 'a') ≠ "" := by
    simp [String.ext_iff, hemp, List.replicate_succ]
  have hdot1 : String.mk (List.replicate (k + 1) 'a') ≠ "." := by
    simp [String.ext_iff, hd1, List.replicate_succ]
  have hdot2 : String.mk (List.replicate (k + 1) 'a') ≠ ".." := by
    simp [String.ext_iff, hd2, List.replicate_succ]
  simp [List.filter_cons, segToComp, hne, hdot1, hdot2]

/-! ## C1 — denied prefixes override every other list -/

/-- C1: for every request path, policy and access kind (read, write,
create, delete), if the normalized path starts with or equals a denied
prefix, `check_path_access` returns an authorization error — whatever the
allowed, read-only and extension lists contain.  (`hmeta` is the
modelling assumption that `symlink_metadata` reads on existing paths
succeed; a failing read surfaces as a filesystem error instead.) -/
theorem denied_prefix_is_denied (fs : FsView) (ac : AccessControl)
    (path : String) (accessType : AccessType)
    (hmeta : ∀ q, fs.exists_ q = true → (fs.symlinkMeta q).isSome = true)
    (hden : isPathDenied ac (normalizePath fs path) = true) :
    ∃ m, checkPathAccess fs ac path accessType = .error (.authorization m) := by
  unfold checkPathAccess resolveSymlinkStep
  by_cases hf : ac.followSymlinks
  · exact ⟨"Access denied to path: " ++ path, by simp [hf, hden]⟩
  · obtain ⟨b, hb⟩ := containsSymlink_ok fs hmeta (normalizePath fs path)
    cases b
    · exact ⟨"Access denied to path: " ++ path, by simp [hf, hb, hden]⟩
    · exact ⟨"Symlinks are not allowed", by simp [hf, hb]⟩

/-- Witness for C1: `/etc/passwd` under the repository's own test policy
(which denies `/etc`) is rejected for a write. -/
theorem denied_prefix_is_denied_witness :
    isPathDenied acTestConfig (normalizePath fsNone "/etc/passwd") = true ∧
    ∃ m, checkPathAccess fsNone acTestConfig "/etc/passwd" .write
        = .error (.authorization m) :=
  ⟨by decide,
    denied_prefix_is_denied fsNone acTestConfig "/etc/passwd" .write
      (fun q h => by simp [fsNone] at h) (by decide)⟩

/-! ## C2 — response routing ignores the originator -/

/-- C2 (failing evaluation): with two live clients, `client-a` registered
first and a response to a request that `client-b` issued, the router's
`find_target_client_for_response` answers `client-a` — the FIRST active
client — because the source keeps no request-tracking table.  The spec's
design notes themselves flag this fallback as a bug. -/
theorem response_routed_to_first_client :
    getActiveNodes twoClientTable .client = ["client-a", "client-b"] ∧
    findTargetClientForResponse (Message.readFileResponse 7 true none 0 none)
        twoClientTable = .ok "client-a" := by
  constructor
  · decide
  · decide

/-! ## C3 — node-id uniqueness in the session table -/

/-- C3 (counterexample): the table reached by two `add_session` calls for
node `node-1` under distinct session ids keeps BOTH sessions live —
`add_session` keys the map by session id and never closes or replaces a
same-node session. -/
theorem duplicate_node_sessions_both_live :
    ReachableTable dupNodeTable ∧
    ((dupNodeTable.map Prod.snd).filter (fun s => s.nodeId = "node-1")).length
      = 2 := by
  constructor
  · exact ReachableTable.add sessNode1B
      (ReachableTable.add sessNode1A ReachableTable.empty)
  · decide

/-- C3 (amended): the session table enforces uniqueness of SESSION ids,
not node ids: in every reachable table the session-id keys are pairwise
distinct (`add_session` replaces an entry with an equal session id and
appends otherwise; removal only drops entries). -/
theorem session_ids_unique (t : SessionTable) (h : ReachableTable t) :
    (t.map Prod.fst).Nodup := by
  induction h with
  | empty => simp [emptyTable]
  | @add t s _ ih =>
    unfold addSession
    by_cases hp : t.any (fun e => e.1 = s.id)
    · have hmap : (t.map fun e => if e.1 = s.id then (s.id, s) else e).map Prod.fst
          = t.map Prod.fst := by
        rw [List.map_map]
        apply List.map_congr_left
        intro e _
        by_cases h1 : e.1 = s.id
        · simp [h1]
        · simp [h1]
      rw [if_pos hp, hmap]
      exact ih
    · have hnotin : s.id ∉ t.map Prod.fst := by
        intro hmem
        obtain ⟨e, he, heq⟩ := List.mem_map.mp hmem
        exact hp (List.any_eq_true.mpr ⟨e, he, by simp [heq]⟩)
      rw [if_neg hp, List.map_append]
      refine List.Nodup.append ih (List.nodup_singleton _) ?_
      intro x hx hxa
      simp only [List.map_cons, List.map_nil, List.mem_singleton] at hxa
      subst hxa
      exact hnotin hx
  | @remove t sessionId _ ih =>
    exact ih.sublist ((List.filter_sublist t).map Prod.fst)

/-- Witness for C3's amended statement: the duplicate-node table is
reachable and its session ids are distinct. -/
theorem session_ids_unique_witness : (dupNodeTable.map Prod.fst).Nodup :=
  session_ids_unique dupNodeTable
    (ReachableTable.add sessNode1B
      (ReachableTable.add sessNode1A ReachableTable.empty))

/-! ## C4 — the write size cap -/

/-- C4 (counterexample): the size cap is computed as
`data.len() as u64 + offset.unwrap_or(0)`, a wrapping 64-bit addition.
With `offset = 2^64 - 1` and two data bytes the true size
`offset + len = 2^64 + 1` exceeds the 1024-byte cap, yet the wrapped sum
is `1`, the check passes, and the handler issues filesystem syscalls —
here it creates the missing parent directory and opens the file with
`create(true)` before the seek fails. -/
theorem write_size_cap_overflow_bypassed :
    (2 ^ 64 - 1) + 2 > acPermissive.maxFileSize ∧
    (handleWriteFile fsNone ioSeekFails acPermissive false accessStats0 fsStats0
        9 "/tmp/newdir/file" [0, 0] (some (2 ^ 64 - 1)) true).2.2.2 ≠ [] := by
  constructor
  · decide
  · decide

/-- C4 (amended): for every write whose true size `offset + len` fits in
64 bits, if it exceeds `max_file_size` then the handler answers
`success = false` (a `WriteFileResponse` with an error string) and issues
no modifying filesystem syscall at all. -/
theorem write_size_cap_refused_without_overflow
    (fs : FsView) (io : WriteIo) (ac : AccessControl) (asyncIo : Bool)
    (ast : AccessStats) (fst : FsStats) (requestId : Nat) (path : String)
    (data : List Nat) (offset : Option Nat) (create : Bool)
    (hnoOverflow : offset.getD 0 + data.length < 2 ^ 64)
    (hover : offset.getD 0 + data.length > ac.maxFileSize) :
    ∃ e, (handleWriteFile fs io ac asyncIo ast fst requestId path data
            offset create).1 = .writeFileResponse requestId false 0 (some e)
      ∧ (handleWriteFile fs io ac asyncIo ast fst requestId path data
            offset create).2.2.2 = [] := by
  have hsize : (data.length + offset.getD 0) % 2 ^ 64 > ac.maxFileSize := by
    rw [Nat.add_comm, Nat.mod_eq_of_lt hnoOverflow]
    exact hover
  unfold handleWriteFile
  rcases h1 : (if create then checkCreateAccess fs ac ast path
      else checkWriteAccess fs ac ast path) with ⟨r1, ast1⟩
  cases r1 with
  | error e => exact ⟨e.msg, rfl, rfl⟩
  | ok u =>
    have hcfs : checkFileSize ac ast1 ((data.length + offset.getD 0) % 2 ^ 64)
        = (.error (.authorization "File size exceeds maximum allowed size"),
            updateStats ast1 false false true) := by
      unfold checkFileSize
      rw [if_pos hsize]
    refine ⟨"File size exceeds maximum allowed size", ?_, ?_⟩
    · simp only [hcfs]
      rfl
    · simp only [hcfs]

/-- Witness for C4's amended statement: a 2000-byte write at offset 0
against a 1024-byte cap is refused with no filesystem effect. -/
theorem write_size_cap_refused_witness :
    ((Option.getD none 0 + (List.replicate 2000 0).length < 2 ^ 64) ∧
      (Option.getD none 0 + (List.replicate 2000 0).length
        > acPermissive.maxFileSize)) ∧
    ∃ e, (handleWriteFile fsNone ioAllOk acPermissive false accessStats0 fsStats0
            3 "/tmp/big" (List.replicate 2000 0) none true).1
        = .writeFileResponse 3 false 0 (some e)
      ∧ (handleWriteFile fsNone ioAllOk acPermissive false accessStats0 fsStats0
            3 "/tmp/big" (List.replicate 2000 0) none true).2.2.2 = [] :=
  ⟨⟨by rw [List.length_replicate, Option.getD_none]; decide,
      by rw [List.length_replicate, Option.getD_none]; decide⟩,
    write_size_cap_refused_without_overflow fsNone ioAllOk acPermissive false
      accessStats0 fsStats0 3 "/tmp/big" (List.replicate 2000 0) none true
      (by rw [List.length_replicate, Option.getD_none]; decide)
      (by rw [List.length_replicate, Option.getD_none]; decide)⟩

/-! ## C5 — NUL and length validation -/

/-- C5 (counterexample): the access gate's normalization performs no NUL
check — a path containing a NUL character passes `check_path_access`
under a policy that otherwise admits it. -/
theorem nul_path_passes_access_gate :
    nulPath.data.contains '\x00' = true ∧
    checkPathAccess fsNone acPermissive nulPath .write = .ok () := by
  constructor
  · decide
  · decide

/-- C5 (amended): the NUL and 4096-character checks live only in
`validation::validate_file_path` (remotefs-common), which rejects paths
longer than 4096 bytes and paths containing NUL and accepts a
4096-character path — but the access gate never invokes it: a
4097-character path passes `check_path_access` unrejected. -/
theorem nul_and_length_checks_only_in_validate_file_path :
    (∀ s : String, 4096 < utf8Len s → isErr (validateFilePath s) = true) ∧
    (∀ s : String, s.data.contains '\x00' = true →
      isErr (validateFilePath s) = true) ∧
    validateFilePath path4096 = .ok () ∧
    isErr (validateFilePath path4097) = true ∧
    checkPathAccess fsNone acPermissive path4097 .read = .ok () := by
  have hlong : ∀ s : String, 4096 < utf8Len s →
      isErr (validateFilePath s) = true := by
    intro s h
    unfold validateFilePath
    by_cases he : s.data.isEmpty
    · exfalso
      rw [List.isEmpty_iff] at he
      rw [utf8Len, he] at h
      simp at h
    · rw [if_neg he, if_pos h]
      rfl
  have hnul : ∀ s : String, s.data.contains '\x00' = true →
      isErr (validateFilePath s) = true := by
    intro s h
    unfold validateFilePath
    by_cases he : s.data.isEmpty
    · exfalso
      rw [List.isEmpty_iff] at he
      rw [he] at h
      simp at h
    · rw [if_neg he]
      by_cases hl : utf8Len s > 4096
      · rw [if_pos hl]
        rfl
      · rw [if_neg hl, if_pos h]
        rfl
  refine ⟨hlong, hnul, ?_, ?_, ?_⟩
  · have h1 : ¬((String.mk (List.replicate 4096 'a')).data.isEmpty = true) := by
      rw [show (String.mk (List.replicate 4096 'a')).data
          = List.replicate 4096 'a' from rfl, List.isEmpty_replicate]
      decide
    have h2 : ¬(utf8Len (String.mk (List.replicate 4096 'a')) > 4096) := by
      rw [utf8Len_replicate_a]
      omega
    have h3 : ¬((String.mk (List.replicate 4096 'a')).data.contains '\x00' = true) := by
      rw [show (String.mk (List.replicate 4096 'a')).data
          = List.replicate 4096 'a' from rfl, replicate_a_contains_nul]
      decide
    unfold validateFilePath path4096
    rw [if_neg h1, if_neg h2, if_neg h3]
  · have h4 : 4096 < utf8Len path4097 := by
      unfold path4097
      rw [utf8Len_replicate_a]
      omega
    exact hlong path4097 h4
  · exact gate_accepts_single_plain_component path4097
      (by unfold path4097; exact parseComponents_replicate_a 4097 (by omega))
      (by unfold path4097; exact extOfName_replicate_a 4097)

/-- Witness for C5's amended statement: a 4097-byte path is rejected by
`validate_file_path`, as is a NUL path. -/
theorem nul_and_length_checks_witness :
    (4096 < utf8Len path4097 ∧ isErr (validateFilePath path4097) = true) ∧
    (nulPath.data.contains '\x00' = true ∧
      isErr (validateFilePath nulPath) = true) :=
  ⟨⟨by unfold path4097; rw [utf8Len_replicate_a]; omega,
      nul_and_length_checks_only_in_validate_file_path.1 path4097
        (by unfold path4097; rw [utf8Len_replicate_a]; omega)⟩,
    ⟨by decide,
      nul_and_length_checks_only_in_validate_file_path.2.1 nulPath (by decide)⟩⟩


/-! ## C6 — outbound frame encodings -/

/-- C6 (counterexample): a link that negotiated the JSON encoding at auth
time later delivers a `Ping` inside a binary frame; `handle_ping` answers
in the INBOUND frame's format, so the outbound `Pong` is binary — not the
session's negotiated encoding. -/
theorem pong_encoding_not_negotiated :
    sessJsonLink.messageFormat = .json ∧
    frameFormat (handlePing 5 3 (inboundFormat (WsFrame.binary (.ping 3))))
      ≠ sessJsonLink.messageFormat := by
  constructor
  · rfl
  · decide

/-- C6 (amended): routed forwards are framed in the target session's
encoding stored at auth time (`send_to_target`), while relay-generated
replies (`send_message`, hence `AuthResponse`, `Pong` and error frames)
are framed in the decode format of the inbound frame that triggered them —
which need not equal the session's negotiated encoding. -/
theorem outbound_encoding_rules :
    (∀ (message : Message) (targetNodeId : String) (t : SessionTable)
        (s : Session), getSessionByNode t targetNodeId = some s →
      ∃ f, sendToTarget message targetNodeId t = .ok f ∧
        frameFormat f = s.messageFormat) ∧
    (∀ (message : Message) (format : MessageFormat),
      frameFormat (sendMessage message format) = format) := by
  constructor
  · intro message targetNodeId t s hs
    unfold sendToTarget
    simp only [hs]
    cases hf : s.messageFormat with
    | json => exact ⟨.text message, rfl, rfl⟩
    | binary => exact ⟨.binary message, rfl, rfl⟩
  · intro message format
    cases format
    · rfl
    · rfl

/-- Witness for C6's amended statement: the binary-negotiated agent link
receives its routed forward as a binary frame. -/
theorem outbound_encoding_rules_witness :
    getSessionByNode binaryAgentTable "agent-1" = some sessAgentBin ∧
    ∃ f, sendToTarget (.pong 1 0) "agent-1" binaryAgentTable = .ok f ∧
      frameFormat f = sessAgentBin.messageFormat :=
  ⟨by decide,
    outbound_encoding_rules.1 (.pong 1 0) "agent-1" binaryAgentTable
      sessAgentBin (by decide)⟩

/-! ## C7 — authentication input validation -/

/-- A string has at least as many UTF-8 bytes as characters. -/
theorem length_le_utf8Len (s : String) : s.data.length ≤ utf8Len s := by
  have haux : ∀ (l : List Char) (acc : Nat),
      acc + l.length ≤ l.foldl (fun n c => n + c.utf8Size) acc := by
    intro l
    induction l with
    | nil => intro acc; simp
    | cons c cs ih =>
      intro acc
      rw [List.foldl_cons]
      have h1 := Char.utf8Size_pos c
      have h2 := ih (acc + c.utf8Size)
      simp only [List.length_cons]
      omega
  have := haux s.data 0
  unfold utf8Len
  omega

/-- C7 (counterexample): the node-id character filter is Rust's Unicode
`char::is_alphanumeric`, not `[A-Za-z0-9_-]`: the node id `"é"` consists
of a character outside the spec's class yet `validate_node_id` accepts
it. -/
theorem unicode_node_id_accepted :
    specAllowedNodeIdChar 'é' = false ∧
    ("é" : String).data = ['é'] ∧
    validateNodeId "é" = .ok () := by
  refine ⟨by decide, rfl, by decide⟩

/-- C7 (amended): `authenticate`'s validations, with the character class
corrected to Unicode-alphanumeric plus `-` and `_` (over the Latin-1
range the embedding models exactly): an empty node id is rejected, one
longer than 64 characters is rejected (the code compares bytes, and
bytes ≥ characters), one containing a non-alphanumeric character other
than `-`/`_` is rejected, a public key whose length is not 32 bytes is
rejected, and a conforming 64-character node id with a 32-byte key
passes both validations. -/
theorem authenticate_validations_behaviour :
    isErr (validateNodeId "") = true ∧
    (∀ nodeId : String, 64 < nodeId.data.length →
      isErr (validateNodeId nodeId) = true) ∧
    (∀ (nodeId : String) (c : Char), c ∈ nodeId.data → c.toNat ≤ 255 →
      rustCharIsAlphanumeric c = false → ¬(c = '-') → ¬(c = '_') →
      isErr (validateNodeId nodeId) = true) ∧
    (∀ publicKey : List Nat, publicKey.length ≠ 32 →
      isErr (validatePublicKey publicKey) = true) ∧
    validateNodeId (String.mk (List.replicate 64 'a')) = .ok () ∧
    validatePublicKey (List.replicate 32 0) = .ok () := by
  refine ⟨by decide, ?_, ?_, ?_, by decide, by decide⟩
  · intro nodeId h
    have hlen : 64 < utf8Len nodeId :=
      Nat.lt_of_lt_of_le h (length_le_utf8Len nodeId)
    unfold validateNodeId
    by_cases he : nodeId.data.isEmpty
    · exfalso
      rw [List.isEmpty_iff] at he
      rw [he] at h
      simp at h
    · rw [if_neg he, if_pos hlen]
      rfl
  · intro nodeId c hc hlat hcl hdash hund
    have hall : nodeId.data.all
        (fun c => rustCharIsAlphanumeric c || c = '-' || c = '_') = false := by
      rw [List.all_eq_false]
      exact ⟨c, hc, by simp [hcl, hdash, hund]⟩
    have hne : ¬(nodeId.data.isEmpty = true) := by
      have := List.ne_nil_of_mem hc
      simpa [List.isEmpty_iff] using this
    unfold validateNodeId
    rw [if_neg hne]
    by_cases hl : utf8Len nodeId > 64
    · rw [if_pos hl]
      rfl
    · rw [if_neg hl, if_pos (by rw [hall]; rfl)]
      rfl
  · intro publicKey h
    unfold validatePublicKey
    by_cases he : publicKey.isEmpty
    · rw [if_pos he]
      rfl
    · rw [if_neg he, if_pos h]
      rfl

/-- Witness for C7's amended statement: a 65-character node id, a node id
containing `!`, and a 3-byte key are all rejected. -/
theorem authenticate_validations_witness :
    (64 < (String.mk (List.replicate 65 'a')).data.length ∧
      isErr (validateNodeId (String.mk (List.replicate 65 'a'))) = true) ∧
    (('!' ∈ ("a!" : String).data ∧ rustCharIsAlphanumeric '!' = false) ∧
      isErr (validateNodeId "a!") = true) ∧
    ([0, 1, 2].length ≠ 32 ∧ isErr (validatePublicKey [0, 1, 2]) = true) :=
  ⟨⟨by rw [show (String.mk (List.replicate 65 'a')).data
        = List.replicate 65 'a' from rfl, List.length_replicate]; omega,
      authenticate_validations_behaviour.2.1 (String.mk (List.replicate 65 'a'))
        (by rw [show (String.mk (List.replicate 65 'a')).data
            = List.replicate 65 'a' from rfl, List.length_replicate]; omega)⟩,
    ⟨⟨by decide, by decide⟩,
      authenticate_validations_behaviour.2.2.1 "a!" '!' (by decide) (by decide)
        (by decide) (by decide) (by decide)⟩,
    ⟨by decide,
      authenticate_validations_behaviour.2.2.2.1 [0, 1, 2] (by decide)⟩⟩

/-! ## C8 — the path-violation counter -/

/-- C8 (failing evaluation): replaying the source's own
`test_statistics_tracking` sequence — an allowed read of
`/tmp/test.txt`, a denied read of `/etc/passwd`, a rejected 10 MiB size
check — leaves `path_violations` at 0, although the test (and the spec)
expect 1: every `check_*_access` wrapper calls
`update_stats(result.is_ok(), false, false)`, so the `path_violation`
flag is never set. -/
theorem path_denial_not_counted :
    (let st1 := (checkReadAccess fsNone acTestConfig accessStats0 "/tmp/test.txt").2
     let st2 := (checkReadAccess fsNone acTestConfig st1 "/etc/passwd").2
     let st3 := (checkFileSize acTestConfig st2 (10 * 1024 * 1024)).2
     st3 = ⟨1, 2, 0, 1⟩ ∧ st3.pathViolations ≠ 1) := by
  decide

/-! ## C9 — the client operation counters -/

/-- One pass of `execute_with_retry`'s loop increments
`operations_total` exactly once, paired with exactly one increment of
the success or the failure counter. -/
theorem execLoop_counters (outcomes : Nat → AttemptOutcome) (st : ClientStats) :
    ∀ (fuel attempt : Nat),
      (execLoop outcomes st attempt fuel).2.operationsTotal
          = st.operationsTotal + 1 ∧
      (execLoop outcomes st attempt fuel).2.operationsSuccessful
          + (execLoop outcomes st attempt fuel).2.operationsFailed
        = st.operationsSuccessful + st.operationsFailed + 1 := by
  intro fuel
  induction fuel with
  | zero =>
    intro attempt
    unfold execLoop
    by_cases h1 : outcomes attempt = .opOk
    · rw [if_pos h1]
      simp [recordSuccess]
      omega
    · rw [if_neg h1]
      by_cases h2 : outcomes attempt = .opRetryableErr
      · rw [if_pos h2]
        simp [recordFailure]
        omega
      · rw [if_neg h2]
        simp [recordFailure]
        omega
  | succ k ih =>
    intro attempt
    unfold execLoop
    by_cases h1 : outcomes attempt = .opOk
    · rw [if_pos h1]
      simp [recordSuccess]
      omega
    · rw [if_neg h1]
      by_cases h2 : outcomes attempt = .opRetryableErr
      · rw [if_pos h2]
        exact ih (attempt + 1)
      · rw [if_neg h2]
        simp [recordFailure]
        omega

/-- The balance invariant is preserved across a call sequence. -/
theorem runClientCalls_balance (calls : List ClientCall) :
    ∀ st : ClientStats,
      st.operationsTotal = st.operationsSuccessful + st.operationsFailed →
      (runClientCalls calls st).operationsTotal
        = (runClientCalls calls st).operationsSuccessful
          + (runClientCalls calls st).operationsFailed := by
  induction calls with
  | nil => intro st h; exact h
  | cons call rest ih =>
    intro st h
    unfold runClientCalls
    rw [List.foldl_cons]
    have hc := execLoop_counters call.outcomes st call.maxRetries 0
    exact ih ((executeWithRetry call.maxRetries call.outcomes st).2) (by
      unfold executeWithRetry
      omega)

/-- C9: every `execute_with_retry` call increments `operations_total`
exactly once together with exactly one of `operations_successful` /
`operations_failed`, however many retry attempts it makes; consequently
`operations_total = operations_successful + operations_failed` holds
after any sequence of client operations started from zeroed stats. -/
theorem client_operation_counters_balance :
    (∀ (maxRetries : Nat) (outcomes : Nat → AttemptOutcome) (st : ClientStats),
      (executeWithRetry maxRetries outcomes st).2.operationsTotal
          = st.operationsTotal + 1 ∧
      (executeWithRetry maxRetries outcomes st).2.operationsSuccessful
          + (executeWithRetry maxRetries outcomes st).2.operationsFailed
        = st.operationsSuccessful + st.operationsFailed + 1) ∧
    (∀ calls : List ClientCall,
      (runClientCalls calls ⟨0, 0, 0⟩).operationsTotal
        = (runClientCalls calls ⟨0, 0, 0⟩).operationsSuccessful
          + (runClientCalls calls ⟨0, 0, 0⟩).operationsFailed) :=
  ⟨fun maxRetries outcomes st => execLoop_counters outcomes st maxRetries 0,
    fun calls => runClientCalls_balance calls ⟨0, 0, 0⟩ rfl⟩

/-! ## C10 — extensionless paths skip the extension filter -/

/-- The symlink step only ever succeeds with the path it was given. -/
theorem resolveSymlinkStep_ok_eq (fs : FsView) (ac : AccessControl)
    (p r : List Comp) (h : resolveSymlinkStep fs ac p = .ok r) : r = p := by
  unfold resolveSymlinkStep at h
  by_cases hf : ac.followSymlinks
  · rw [if_pos hf] at h
    cases h
    rfl
  · rw [if_neg hf] at h
    cases hcs : containsSymlink fs p with
    | error e => rw [hcs] at h; cases h
    | ok b =>
      rw [hcs] at h
      cases b
      · cases h; rfl
      · cases h

/-- Two policies that agree on everything except the extension lists
produce the same verdict on an extensionless path. -/
theorem checkPathAccess_ext_lists_irrelevant (fs : FsView)
    (ac ac2 : AccessControl) (path : String) (accessType : AccessType)
    (hfs : ac.followSymlinks = ac2.followSymlinks)
    (hd : ac.deniedPaths = ac2.deniedPaths)
    (ha : ac.allowedPaths = ac2.allowedPaths)
    (hr : ac.readOnlyPaths = ac2.readOnlyPaths)
    (hext : rustExtension (normalizePath fs path) = none) :
    checkPathAccess fs ac path accessType
      = checkPathAccess fs ac2 path accessType := by
  unfold checkPathAccess
  have hstep : resolveSymlinkStep fs ac (normalizePath fs path)
      = resolveSymlinkStep fs ac2 (normalizePath fs path) := by
    unfold resolveSymlinkStep
    rw [hfs]
  simp only [hstep]
  cases hs : resolveSymlinkStep fs ac2 (normalizePath fs path) with
  | error e => rfl
  | ok r =>
    have hre : r = normalizePath fs path := resolveSymlinkStep_ok_eq fs ac2 _ r hs
    subst hre
    unfold isPathDenied isPathAllowed isPathReadOnly
    simp only [hd, ha, hr, hext]

/-- C10: a path whose normalized form has no extension is never touched
by the extension filter — `check_path_access` under any extension lists
equals `check_path_access` with the filter disabled (both lists empty),
so a non-empty allowed-extensions list does not restrict extensionless
files. -/
theorem extensionless_skips_extension_filter (fs : FsView)
    (base : AccessControl) (path : String) (accessType : AccessType)
    (ae de : List String)
    (hext : rustExtension (normalizePath fs path) = none) :
    checkPathAccess fs
        { base with allowedExtensions := ae, deniedExtensions := de }
        path accessType
      = checkPathAccess fs
          { base with allowedExtensions := [], deniedExtensions := [] }
          path accessType :=
  checkPathAccess_ext_lists_irrelevant fs _ _ path accessType rfl rfl rfl rfl hext

/-- Witness for C10: the extensionless `/tmp/noext` gets the same verdict
under the test policy's non-empty extension lists as with the filter
disabled. -/
theorem extensionless_skips_extension_filter_witness :
    rustExtension (normalizePath fsNone "/tmp/noext") = none ∧
    checkPathAccess fsNone { acTestConfig with allowedExtensions := ["txt", "md"], deniedExtensions := ["exe", "bat"] } "/tmp/noext" .read
      = checkPathAccess fsNone { acTestConfig with allowedExtensions := [], deniedExtensions := [] } "/tmp/noext" .read :=
  ⟨by decide,
    extensionless_skips_extension_filter fsNone acTestConfig "/tmp/noext" .read
      ["txt", "md"] ["exe", "bat"] (by decide)⟩

end RemoteFS
